import Mathlib

/-!
Verification of the CT-saturation calculation core (`src/core` of the
`saturacao_tc` repository): a shallow embedding of `types.py`,
`transformer_models.py` and `calc_engine.py` over the real numbers, followed
by theorems settling the frozen claims about it.

Python floats are modelled by `ℝ`, NumPy arrays by `List ℝ`, `None`-able
fields by `Option`, raised `ValueError`s by an `Except` error type whose
constructors carry the spec's error taxonomy names, and `float('inf')`
(the non-saturated saturation time) by `⊤ : WithTop ℝ`.
-/

/-- `CTParams` from `src/core/types.py`: parameters of a current transformer. -/
structure CTParams where
  ct_ratio : ℝ
  r_ct : ℝ
  r_b : ℝ
  i_sn : ℝ
  k_h : ℝ := 1
  k_ssc : ℝ := 1
  k_td : ℝ := 1
  v_sat : Option ℝ := none
  s : ℝ := 2
  a : ℝ := 1

/-- `SimulationParams` from `src/core/types.py`. -/
structure SimulationParams where
  frequency_hz : ℝ
  n_cycles : ℕ
  ip_fault : ℝ
  t_const_primary : ℝ
  dt : Option ℝ := none

/-- `Waveforms` from `src/core/types.py`: the six time-domain series. -/
structure Waveforms where
  t : List ℝ
  i_ideal : List ℝ
  i_real : List ℝ
  i_excitation : List ℝ
  flux : List ℝ
  v_req_instant : List ℝ

/-- `SimulationResult` from `src/core/types.py`.  The two `saturated_*`
booleans are modelled as propositions; `tsat` lives in `WithTop ℝ` with `⊤`
standing for `float('inf')`. -/
structure SimulationResult where
  ct_params : CTParams
  sim_params : SimulationParams
  waveforms : Waveforms
  vsat : ℝ
  v_req_perm : ℝ
  v_req_trans : ℝ
  tsat : WithTop ℝ
  saturated_perm : Prop
  saturated_trans : Prop

/-- The spec's error taxonomy (§7) for the `ValueError`s raised by the core
and the factory's unsupported-type failure (which carries the identifier). -/
inductive SimError where
  | invalidState : SimError
  | invalidConfiguration : SimError
  | insufficientData : SimError
  | unsupportedType (ct_type : String) : SimError
deriving DecidableEq, Repr

/-- The time-step value used by `TPXTransformer.simulate_waveforms`
(`transformer_models.py` lines 164-167): `sim_params.dt` when set, else
`1/(frequency_hz * 200)` (200 samples per cycle). -/
noncomputable def dt_value (sim : SimulationParams) : ℝ :=
  match sim.dt with
  | some d => d
  | none => 1 / (sim.frequency_hz * 200)

/-- `_resolve_dt` from `src/core/calc_engine.py`: returns the params
unchanged when `dt` is set, otherwise fills in `1/(frequency_hz * 200)`. -/
noncomputable def resolve_dt (sim : SimulationParams) : SimulationParams :=
  match sim.dt with
  | some _ => sim
  | none => { sim with dt := some (1 / (sim.frequency_hz * 200)) }

/-- `total_time = n_cycles / frequency_hz` (`transformer_models.py` line 169). -/
noncomputable def total_time (sim : SimulationParams) : ℝ :=
  (sim.n_cycles : ℝ) / sim.frequency_hz

/-- `n_samples = int(np.ceil(total_time / dt))` (`transformer_models.py`
line 170); nonnegative ceiling since the sample count is a length. -/
noncomputable def n_samples (sim : SimulationParams) (d : ℝ) : ℕ :=
  ⌈total_time sim / d⌉₊

/-- The uniform grid `np.linspace(0, total_time, n, endpoint=False)`
(`transformer_models.py` line 172): `t[k] = k * (total_time / n)`. -/
noncomputable def tGrid (sim : SimulationParams) (d : ℝ) (k : ℕ) : ℝ :=
  (k : ℝ) * (total_time sim / (n_samples sim d : ℝ))

/-- `TPXTransformer._compute_i_ideal` (`transformer_models.py` 101-110):
`(√2·ip_fault/ct_ratio)·(e^{-t/T_p} − cos(ω t))`, `ω = 2π·frequency_hz`. -/
noncomputable def compute_i_ideal (p : CTParams) (sim : SimulationParams)
    (t : ℝ) : ℝ :=
  let omega := 2 * Real.pi * sim.frequency_hz
  (Real.sqrt 2 * sim.ip_fault / p.ct_ratio) *
    (Real.exp (-t / sim.t_const_primary) - Real.cos (omega * t))

open Classical in
/-- `TPXTransformer._update_flux` (`transformer_models.py` 112-131). -/
noncomputable def update_flux (p : CTParams)
    (lambda_prev i_ideal_k i_exc_prev d : ℝ) : ℝ :=
  let denom := 1 + p.s * p.a * (if p.s ≠ 1 then |lambda_prev| ^ (p.s - 1) else 1)
  lambda_prev + (p.ct_ratio * (i_ideal_k - i_exc_prev) / denom) * d

open Classical in
/-- `TPXTransformer._compute_excitation_current` (`transformer_models.py`
133-141): `a·|λ|^s·sign λ`, and `0` when `λ = 0`. -/
noncomputable def compute_excitation_current (p : CTParams) (lambda_k : ℝ) : ℝ :=
  if lambda_k = 0 then 0 else p.a * |lambda_k| ^ p.s * Real.sign lambda_k

/-- The integration loop of `TPXTransformer.simulate_waveforms`
(`transformer_models.py` 175-189) as a recurrence: `tpx_state p sim d k`
is the pair `(flux[k], i_excitation[k])`.  Index 0 keeps the
zero-initialised values; index `k+1` performs the loop body. -/
noncomputable def tpx_state (p : CTParams) (sim : SimulationParams) (d : ℝ) :
    ℕ → ℝ × ℝ
  | 0 => (0, 0)
  | k + 1 =>
    let prev := tpx_state p sim d k
    let lam := update_flux p prev.1
      (compute_i_ideal p sim (tGrid sim d (k + 1))) prev.2 d
    (lam, compute_excitation_current p lam)

/-- `i_real[k]` of the same loop: zero-initialised at index 0 (the loop
starts at `k = 1`), `i_ideal[k] − i_excitation[k]` afterwards. -/
noncomputable def tpx_i_real (p : CTParams) (sim : SimulationParams) (d : ℝ) :
    ℕ → ℝ
  | 0 => 0
  | k + 1 =>
    compute_i_ideal p sim (tGrid sim d (k + 1)) - (tpx_state p sim d (k + 1)).2

/-- The `Waveforms` value produced by `TPXTransformer.simulate_waveforms`
(`transformer_models.py` 143-189): resolves `dt`, builds the time grid, the
vectorised `i_ideal`, the loop outputs, and
`v_req_instant = (r_ct + r_b)·|i_real|`. -/
noncomputable def tpx_waveforms (p : CTParams) (sim : SimulationParams) :
    Waveforms :=
  let d := dt_value sim
  let n := n_samples sim d
  { t := (List.range n).map (fun k => tGrid sim d k)
    i_ideal := (List.range n).map (fun k => compute_i_ideal p sim (tGrid sim d k))
    i_real := (List.range n).map (fun k => tpx_i_real p sim d k)
    i_excitation := (List.range n).map (fun k => (tpx_state p sim d k).2)
    flux := (List.range n).map (fun k => (tpx_state p sim d k).1)
    v_req_instant := (List.range n).map
      (fun k => (p.r_ct + p.r_b) * |tpx_i_real p sim d k|) }

open Classical in
/-- Python 3 `round` (banker's rounding, used at `transformer_models.py`
line 56): rounds half to even, everything else to the nearest integer. -/
noncomputable def pyRound (x : ℝ) : ℤ :=
  if x - ⌊x⌋ = 1 / 2 then (if Even ⌊x⌋ then ⌊x⌋ else ⌊x⌋ + 1) else round x

/-- `np.sqrt(np.mean(window ** 2))` (`transformer_models.py` line 68). -/
noncomputable def rms (w : List ℝ) : ℝ :=
  Real.sqrt ((w.map (fun x => x ^ 2)).sum / (w.length : ℝ))

open Classical in
/-- The body of `BaseTransformer.calculate_required_voltages`
(`transformer_models.py` 46-79) applied to an `i_real` series: the dt guard,
`samples_per_cycle = round(1/(frequency_hz·dt))` with its positivity guard,
the minimum-length guard, the sliding one-cycle RMS list
(`window = i_real[end-spc : end]` for `end` in `[spc, n]`), and the pair
`((r_ct+r_b)·rms_values[-1], (r_ct+r_b)·max(rms_values))`. -/
noncomputable def required_voltages_core (p : CTParams)
    (sim : SimulationParams) (i_real : List ℝ) : Except SimError (ℝ × ℝ) :=
  match sim.dt with
  | none => .error .invalidState
  | some d =>
    let spcZ := pyRound (1 / (sim.frequency_hz * d))
    if spcZ ≤ 0 then .error .invalidConfiguration
    else
      let spc := spcZ.toNat
      let n := i_real.length
      if n < spc then .error .insufficientData
      else
        let rms_values := (List.range (n + 1 - spc)).map
          (fun j => rms ((i_real.drop j).take spc))
        let r_total := p.r_ct + p.r_b
        let rms_perm := rms_values.getLast?.getD 0
        let rms_trans := rms_values.maximum.unbot' 0
        .ok (r_total * rms_perm, r_total * rms_trans)

/-- A `TPXTransformer` instance (`transformer_models.py` 82-189): its
`CTParams` plus the `_last_waveforms` cache inherited from
`BaseTransformer.__init__`. -/
structure TPXTransformer where
  params : CTParams
  last_waveforms : Option Waveforms := none

/-- `TPXTransformer.calculate_saturation_voltage` (`transformer_models.py`
92-99): the `v_sat` override when present, else
`k_h·k_ssc·k_td·(r_ct+r_b)·i_sn`. -/
noncomputable def TPXTransformer.calculate_saturation_voltage
    (m : TPXTransformer) : ℝ :=
  match m.params.v_sat with
  | some v => v
  | none =>
    m.params.k_h * m.params.k_ssc * m.params.k_td *
      (m.params.r_ct + m.params.r_b) * m.params.i_sn

/-- `TPXTransformer.simulate_waveforms` as a state-passing method: returns
the waveforms and the instance with `_last_waveforms` overwritten
(`transformer_models.py` 186-189). -/
noncomputable def TPXTransformer.simulate_waveforms (m : TPXTransformer)
    (sim : SimulationParams) : Waveforms × TPXTransformer :=
  let w := tpx_waveforms m.params sim
  (w, { m with last_waveforms := some w })

/-- `BaseTransformer._ensure_waveforms` (`transformer_models.py` 33-36):
reuse the cache when present, otherwise simulate (which fills it). -/
noncomputable def TPXTransformer.ensure_waveforms (m : TPXTransformer)
    (sim : SimulationParams) : Waveforms × TPXTransformer :=
  match m.last_waveforms with
  | some w => (w, m)
  | none => m.simulate_waveforms sim

/-- `BaseTransformer.calculate_required_voltages` (`transformer_models.py`
38-79) as a state-passing method over `required_voltages_core`. -/
noncomputable def TPXTransformer.calculate_required_voltages
    (m : TPXTransformer) (sim : SimulationParams) :
    Except SimError ((ℝ × ℝ) × TPXTransformer) :=
  let pair := m.ensure_waveforms sim
  (required_voltages_core m.params sim pair.1.i_real).map (fun pr => (pr, pair.2))

/-- The keys of `TransformerFactory._registry` (`transformer_models.py`
197-199); only `"TPX"` is registered. -/
def registry_keys : List String := ["TPX"]

/-- Python's `str.upper()` on the identifier (character-wise uppercasing;
the registry keys are ASCII). -/
def str_upper (s : String) : String :=
  ⟨s.data.map Char.toUpper⟩

/-- `TransformerFactory.create` (`transformer_models.py` 201-207): looks the
identifier up case-insensitively (`ct_type.upper()`); an unregistered
identifier raises `ValueError(f"Unsupported CT type: {ct_type!r}")`, whose
message carries the offending identifier. -/
def TransformerFactory.create (ct_type : String) (p : CTParams) :
    Except SimError TPXTransformer :=
  if str_upper ct_type ∈ registry_keys then .ok { params := p }
  else .error (.unsupportedType ct_type)

open Classical in
/-- The first index where `v_req_instant > vsat`, i.e.
`np.where(v_req_instant > vsat)[0][0]` in `_compute_tsat`
(`src/core/calc_engine.py` 18-27); `none` when no sample exceeds. -/
noncomputable def first_exceed_idx (vsat : ℝ) : List ℝ → Option ℕ
  | [] => none
  | x :: xs => if x > vsat then some 0 else (first_exceed_idx vsat xs).map (· + 1)

/-- `_compute_tsat` (`src/core/calc_engine.py` 18-27): `wave_t[idx]` at the
first exceeding index, `float('inf')` (here `⊤`) when there is none. -/
noncomputable def compute_tsat (wave_t : List ℝ) (v_req_instant : List ℝ)
    (vsat : ℝ) : WithTop ℝ :=
  match first_exceed_idx vsat v_req_instant with
  | none => ⊤
  | some i =>
    match wave_t.get? i with
    | some x => (x : WithTop ℝ)
    | none => ⊤

open Classical in
/-- `run_simulation` (`src/core/calc_engine.py` 30-62): resolve `dt`, create
the transformer, compute `vsat`, the waveforms, the required voltages, the
two strict saturation comparisons, `tsat` (only when `saturated_trans`),
and assemble the `SimulationResult`. -/
noncomputable def run_simulation (ct_params : CTParams)
    (sim_params : SimulationParams) (ct_type : String) :
    Except SimError SimulationResult :=
  let sim := resolve_dt sim_params
  match TransformerFactory.create ct_type ct_params with
  | .error e => .error e
  | .ok transformer =>
    let vsat := transformer.calculate_saturation_voltage
    let pairW := transformer.simulate_waveforms sim
    let waveforms := pairW.1
    match pairW.2.calculate_required_voltages sim with
    | .error e => .error e
    | .ok pr =>
      let v_req_perm := pr.1.1
      let v_req_trans := pr.1.2
      let saturated_perm := vsat < v_req_perm
      let saturated_trans := vsat < v_req_trans
      let tsat :=
        if saturated_trans then compute_tsat waveforms.t waveforms.v_req_instant vsat
        else (⊤ : WithTop ℝ)
      .ok { ct_params := ct_params
            sim_params := sim
            waveforms := waveforms
            vsat := vsat
            v_req_perm := v_req_perm
            v_req_trans := v_req_trans
            tsat := tsat
            saturated_perm := saturated_perm
            saturated_trans := saturated_trans }

/-! ### Concrete parameter values used by the witness theorems -/

/-- A CT with `v_sat` unset, distinct saturation factors. -/
noncomputable def ctA : CTParams :=
  { ct_ratio := 1, r_ct := 1, r_b := 1, i_sn := 5, k_h := 2, k_ssc := 3,
    k_td := 1, v_sat := none, s := 2, a := 1 }

/-- A CT with a direct `v_sat` override. -/
noncomputable def ctB : CTParams :=
  { ct_ratio := 1, r_ct := 1, r_b := 1, i_sn := 5, k_h := 2, k_ssc := 3,
    k_td := 1, v_sat := some 7, s := 2, a := 1 }

/-- A CT with zero magnetization gain (`a = 0`). -/
noncomputable def ctC : CTParams :=
  { ct_ratio := 1, r_ct := 1, r_b := 1, i_sn := 1, k_h := 1, k_ssc := 1,
    k_td := 1, v_sat := none, s := 2, a := 0 }

/-- A one-sample simulation scenario: one cycle at 1 Hz with `dt = 1` s. -/
noncomputable def simP : SimulationParams :=
  { frequency_hz := 1, n_cycles := 1, ip_fault := 0, t_const_primary := 1,
    dt := some 1 }

/-- A two-samples-per-cycle scenario: `dt = 1/2` s at 1 Hz. -/
noncomputable def simQ : SimulationParams :=
  { frequency_hz := 1, n_cycles := 1, ip_fault := 0, t_const_primary := 1,
    dt := some (1 / 2) }

/-- A scenario with `dt` left unresolved. -/
noncomputable def simN : SimulationParams :=
  { frequency_hz := 1, n_cycles := 1, ip_fault := 0, t_const_primary := 1,
    dt := none }

/-- A scenario whose `dt` is far larger than one cycle. -/
noncomputable def simCoarse : SimulationParams :=
  { frequency_hz := 1, n_cycles := 1, ip_fault := 0, t_const_primary := 1,
    dt := some 1000 }

/-- A one-sample all-zero waveform set (what `simP` scenarios produce). -/
noncomputable def wZ : Waveforms :=
  { t := [0], i_ideal := [0], i_real := [0], i_excitation := [0], flux := [0],
    v_req_instant := [0] }

/-- A one-sample waveform set with a nonzero real current, used as a
pre-populated cache. -/
noncomputable def w9 : Waveforms :=
  { t := [0], i_ideal := [0], i_real := [5], i_excitation := [0], flux := [0],
    v_req_instant := [10] }

/-- The `SimulationResult` of `run_simulation ctA simP "TPX"`. -/
noncomputable def resW1 : SimulationResult :=
  { ct_params := ctA, sim_params := simP, waveforms := wZ, vsat := 60,
    v_req_perm := 0, v_req_trans := 0, tsat := ⊤, saturated_perm := False,
    saturated_trans := False }

/-! ### Helper lemmas -/

theorem dt_value_of_some {sim : SimulationParams} {d : ℝ} (h : sim.dt = some d) :
    dt_value sim = d := by
  unfold dt_value
  rw [h]

theorem mem_registry_iff (s : String) : s ∈ registry_keys ↔ s = "TPX" := by
  simp [registry_keys]

/-! ### C2: saturation voltage -/

/-- C2: for every `CTParams` value, `calculate_saturation_voltage` returns
`v_sat` unchanged when the override is set; when unset it returns exactly
`k_h * k_ssc * k_td * (r_ct + r_b) * i_sn`; it is total and depends only on
the parameters (the waveform cache is irrelevant). -/
theorem C2_calculate_saturation_voltage (m : TPXTransformer) :
    (∀ v, m.params.v_sat = some v → m.calculate_saturation_voltage = v) ∧
    (m.params.v_sat = none →
      m.calculate_saturation_voltage =
        m.params.k_h * m.params.k_ssc * m.params.k_td *
          (m.params.r_ct + m.params.r_b) * m.params.i_sn) ∧
    (∀ c, TPXTransformer.calculate_saturation_voltage
        { params := m.params, last_waveforms := c } =
      m.calculate_saturation_voltage) := by
  refine ⟨?_, ?_, ?_⟩
  · intro v hv
    unfold TPXTransformer.calculate_saturation_voltage
    rw [hv]
  · intro hv
    unfold TPXTransformer.calculate_saturation_voltage
    rw [hv]
  · intro c
    unfold TPXTransformer.calculate_saturation_voltage
    rfl

/-- Witness for C2 at concrete parameters: the override value `7` is
returned unchanged, and with the override unset the IEC product
`2·3·1·(1+1)·5` is returned. -/
theorem C2_witness :
    (TPXTransformer.mk ctB none).calculate_saturation_voltage = 7 ∧
    (TPXTransformer.mk ctA none).calculate_saturation_voltage =
      2 * 3 * 1 * (1 + 1) * 5 :=
  ⟨(C2_calculate_saturation_voltage (TPXTransformer.mk ctB none)).1 7 rfl,
   (C2_calculate_saturation_voltage (TPXTransformer.mk ctA none)).2.1 rfl⟩

/-! ### C8: factory lookup -/

/-- C8: `TransformerFactory.create` resolves the CT-type identifier
case-insensitively against the fixed registry containing `"TPX"`: every
case variant of `"TPX"` yields a TPX model built from the given parameters
(fresh cache), and every other identifier fails with `UnsupportedType`
carrying the offending identifier. -/
theorem C8_factory_create (ct_type : String) (p : CTParams) :
    (str_upper ct_type = "TPX" →
      TransformerFactory.create ct_type p =
        .ok { params := p, last_waveforms := none }) ∧
    (str_upper ct_type ≠ "TPX" →
      TransformerFactory.create ct_type p =
        .error (.unsupportedType ct_type)) := by
  constructor
  · intro h
    unfold TransformerFactory.create
    rw [if_pos ((mem_registry_iff _).mpr h)]
  · intro h
    unfold TransformerFactory.create
    rw [if_neg (fun hmem => h ((mem_registry_iff _).mp hmem))]

/-- Witness for C8: the lowercase variant `"tpx"` succeeds, and the
unregistered identifier `"TPZ"` fails with an error naming `"TPZ"`. -/
theorem C8_witness :
    TransformerFactory.create "tpx" ctA =
      .ok { params := ctA, last_waveforms := none } ∧
    TransformerFactory.create "TPZ" ctA =
      .error (.unsupportedType "TPZ") :=
  ⟨(C8_factory_create "tpx" ctA).1 (by decide),
   (C8_factory_create "TPZ" ctA).2 (by decide)⟩

/-! ### Helper lemmas: rounding -/

theorem pyRound_natCast (n : ℕ) : pyRound (n : ℝ) = n := by
  unfold pyRound
  rw [Int.floor_natCast]
  have h : (n : ℝ) - (n : ℤ) = 0 := by push_cast; ring
  rw [h, if_neg (by norm_num), round_natCast]

theorem pyRound_eq_zero {x : ℝ} (h0 : 0 ≤ x) (h1 : x < 1 / 2) : pyRound x = 0 := by
  have hfl : ⌊x⌋ = 0 := by
    rw [Int.floor_eq_zero_iff, Set.mem_Ico]
    constructor <;> linarith
  unfold pyRound
  rw [hfl]
  have hne : x - ((0 : ℤ) : ℝ) ≠ 1 / 2 := by
    push_cast
    intro hc
    rw [sub_zero] at hc
    exact absurd hc (by linarith)
  rw [if_neg hne, round_eq]
  rw [Int.floor_eq_zero_iff, Set.mem_Ico]
  constructor <;> linarith

/-! ### Helper lemmas: the first-crossing detector -/

theorem first_exceed_idx_eq_some {v : ℝ} :
    ∀ {l : List ℝ} {k : ℕ}, first_exceed_idx v l = some k →
      (∃ x, l.get? k = some x ∧ v < x) ∧
      ∀ j, j < k → ∃ y, l.get? j = some y ∧ ¬ v < y := by
  intro l
  induction l with
  | nil => intro k h; simp [first_exceed_idx] at h
  | cons x xs ih =>
    intro k h
    unfold first_exceed_idx at h
    by_cases hx : x > v
    · rw [if_pos hx] at h
      obtain rfl : k = 0 := by simpa using h.symm
      exact ⟨⟨x, rfl, hx⟩, fun j hj => absurd hj (Nat.not_lt_zero j)⟩
    · rw [if_neg hx] at h
      obtain ⟨k0, hk0, rfl⟩ := Option.map_eq_some'.mp h
      obtain ⟨⟨y, hy, hvy⟩, hmin⟩ := ih hk0
      refine ⟨⟨y, hy, hvy⟩, ?_⟩
      intro j hj
      cases j with
      | zero => exact ⟨x, rfl, hx⟩
      | succ j0 => exact hmin j0 (Nat.lt_of_succ_lt_succ hj)

theorem first_exceed_idx_eq_none {v : ℝ} :
    ∀ {l : List ℝ}, first_exceed_idx v l = none →
      ∀ j y, l.get? j = some y → ¬ v < y := by
  intro l
  induction l with
  | nil => intro _ j y hy; simp at hy
  | cons x xs ih =>
    intro h j y hy
    unfold first_exceed_idx at h
    by_cases hx : x > v
    · rw [if_pos hx] at h; exact absurd h (by simp)
    · rw [if_neg hx] at h
      have hnone : first_exceed_idx v xs = none := Option.map_eq_none'.mp h
      cases j with
      | zero =>
        obtain rfl : x = y := by simpa using hy
        exact hx
      | succ j0 => exact ih hnone j0 y (by simpa using hy)


/-! ### Helper lemmas: the simulated waveforms -/

theorem tGrid_zero (sim : SimulationParams) (d : ℝ) : tGrid sim d 0 = 0 := by
  simp [tGrid]

theorem compute_i_ideal_at_zero (p : CTParams) (sim : SimulationParams) :
    compute_i_ideal p sim 0 = 0 := by
  simp [compute_i_ideal]

theorem total_time_pos {sim : SimulationParams} {d : ℝ} (hdpos : 0 < d)
    (hn : 0 < n_samples sim d) : 0 < total_time sim := by
  have hq : 0 < total_time sim / d := by
    by_contra hq
    push_neg at hq
    have : n_samples sim d = 0 := by
      unfold n_samples
      exact Nat.ceil_eq_zero.mpr hq
    omega
  have := mul_pos hq hdpos
  rwa [div_mul_cancel₀ _ (ne_of_gt hdpos)] at this

theorem tpx_state_snd_eq_zero {p : CTParams} (ha : p.a = 0)
    (sim : SimulationParams) (d : ℝ) : ∀ k, (tpx_state p sim d k).2 = 0 := by
  intro k
  cases k with
  | zero => rfl
  | succ k0 =>
    show compute_excitation_current p _ = 0
    unfold compute_excitation_current
    split
    · rfl
    · rw [ha]; ring

theorem get?_map_range {α : Type} (f : ℕ → α) {k n : ℕ} (h : k < n) :
    ((List.range n).map f).get? k = some (f k) := by
  rw [List.get?_map, List.get?_range h, Option.map_some']

theorem get?_map_range_inv {α : Type} {f : ℕ → α} {k n : ℕ} {x : α}
    (h : ((List.range n).map f).get? k = some x) : k < n ∧ x = f k := by
  rw [List.get?_map] at h
  obtain ⟨k', hr, hfx⟩ := Option.map_eq_some'.mp h
  obtain ⟨hlen, hval⟩ := List.get?_eq_some.mp hr
  rw [List.get_range] at hval
  subst hval
  rw [List.length_range] at hlen
  exact ⟨hlen, hfx.symm⟩

theorem waveforms_t_get? (p : CTParams) (sim : SimulationParams) {k : ℕ}
    (h : k < n_samples sim (dt_value sim)) :
    (tpx_waveforms p sim).t.get? k =
      some (tGrid sim (dt_value sim) k) :=
  get?_map_range _ h

theorem waveforms_i_ideal_get? (p : CTParams) (sim : SimulationParams) {k : ℕ}
    (h : k < n_samples sim (dt_value sim)) :
    (tpx_waveforms p sim).i_ideal.get? k =
      some (compute_i_ideal p sim (tGrid sim (dt_value sim) k)) :=
  get?_map_range _ h

theorem waveforms_i_real_get? (p : CTParams) (sim : SimulationParams) {k : ℕ}
    (h : k < n_samples sim (dt_value sim)) :
    (tpx_waveforms p sim).i_real.get? k =
      some (tpx_i_real p sim (dt_value sim) k) :=
  get?_map_range _ h

theorem waveforms_vri_get? (p : CTParams) (sim : SimulationParams) {k : ℕ}
    (h : k < n_samples sim (dt_value sim)) :
    (tpx_waveforms p sim).v_req_instant.get? k =
      some ((p.r_ct + p.r_b) * |tpx_i_real p sim (dt_value sim) k|) :=
  get?_map_range _ h

theorem waveforms_flux_get? (p : CTParams) (sim : SimulationParams) {k : ℕ}
    (h : k < n_samples sim (dt_value sim)) :
    (tpx_waveforms p sim).flux.get? k =
      some ((tpx_state p sim (dt_value sim) k).1) :=
  get?_map_range _ h

theorem waveforms_exc_get? (p : CTParams) (sim : SimulationParams) {k : ℕ}
    (h : k < n_samples sim (dt_value sim)) :
    (tpx_waveforms p sim).i_excitation.get? k =
      some ((tpx_state p sim (dt_value sim) k).2) :=
  get?_map_range _ h

/-! ### C3: waveform lengths, grid and cold start -/

/-- C3: for every `SimulationParams` with resolved positive dt, the six
waveform arrays share the length `n = ⌈(n_cycles/frequency_hz)/dt⌉`; the
time grid is `t[k] = k·total_time/n` for `k < n`, so every sample (the last
included) is strictly before `total_time`; and `flux[0] = 0` and
`i_excitation[0] = 0`. -/
theorem C3_simulate_waveforms_grid (p : CTParams) (sim : SimulationParams)
    (d : ℝ) (hd : sim.dt = some d) (hdpos : 0 < d) :
    ((tpx_waveforms p sim).t.length = ⌈total_time sim / d⌉₊ ∧
     (tpx_waveforms p sim).i_ideal.length = ⌈total_time sim / d⌉₊ ∧
     (tpx_waveforms p sim).i_real.length = ⌈total_time sim / d⌉₊ ∧
     (tpx_waveforms p sim).i_excitation.length = ⌈total_time sim / d⌉₊ ∧
     (tpx_waveforms p sim).flux.length = ⌈total_time sim / d⌉₊ ∧
     (tpx_waveforms p sim).v_req_instant.length = ⌈total_time sim / d⌉₊) ∧
    (∀ k, k < ⌈total_time sim / d⌉₊ →
      (tpx_waveforms p sim).t.get? k =
        some ((k : ℝ) * (total_time sim / (⌈total_time sim / d⌉₊ : ℝ))) ∧
      (k : ℝ) * (total_time sim / (⌈total_time sim / d⌉₊ : ℝ)) < total_time sim) ∧
    (0 < ⌈total_time sim / d⌉₊ →
      (tpx_waveforms p sim).flux.get? 0 = some 0 ∧
      (tpx_waveforms p sim).i_excitation.get? 0 = some 0) := by
  have hdv : dt_value sim = d := dt_value_of_some hd
  have hn_eq : n_samples sim (dt_value sim) = ⌈total_time sim / d⌉₊ := by
    rw [hdv]; rfl
  refine ⟨?_, ?_, ?_⟩
  · simp [tpx_waveforms, hdv, n_samples]
  · intro k hk
    have hk' : k < n_samples sim (dt_value sim) := by rw [hn_eq]; exact hk
    constructor
    · rw [waveforms_t_get? p sim hk']
      unfold tGrid
      rw [hn_eq]
    · have hn0 : 0 < ⌈total_time sim / d⌉₊ :=
        Nat.lt_of_le_of_lt (Nat.zero_le k) hk
      have hT : 0 < total_time sim := total_time_pos hdpos (by exact hn0)
      have hnR : (0 : ℝ) < (⌈total_time sim / d⌉₊ : ℝ) := by
        exact_mod_cast hn0
      have hkR : (k : ℝ) < (⌈total_time sim / d⌉₊ : ℝ) := by exact_mod_cast hk
      have hstep : 0 < total_time sim / (⌈total_time sim / d⌉₊ : ℝ) :=
        div_pos hT hnR
      calc (k : ℝ) * (total_time sim / (⌈total_time sim / d⌉₊ : ℝ))
          < (⌈total_time sim / d⌉₊ : ℝ) *
              (total_time sim / (⌈total_time sim / d⌉₊ : ℝ)) :=
            mul_lt_mul_of_pos_right hkR hstep
        _ = total_time sim := by
            rw [mul_comm, div_mul_cancel₀ _ (ne_of_gt hnR)]
  · intro hn0
    have hn0' : 0 < n_samples sim (dt_value sim) := by rw [hn_eq]; exact hn0
    refine ⟨?_, ?_⟩
    · rw [waveforms_flux_get? p sim hn0']
      rfl
    · rw [waveforms_exc_get? p sim hn0']
      rfl

/-- Witness for C3 at a one-sample scenario (1 cycle at 1 Hz, dt = 1 s). -/
theorem C3_witness :
    ((tpx_waveforms ctA simP).t.length = ⌈total_time simP / 1⌉₊ ∧
     (tpx_waveforms ctA simP).i_ideal.length = ⌈total_time simP / 1⌉₊ ∧
     (tpx_waveforms ctA simP).i_real.length = ⌈total_time simP / 1⌉₊ ∧
     (tpx_waveforms ctA simP).i_excitation.length = ⌈total_time simP / 1⌉₊ ∧
     (tpx_waveforms ctA simP).flux.length = ⌈total_time simP / 1⌉₊ ∧
     (tpx_waveforms ctA simP).v_req_instant.length = ⌈total_time simP / 1⌉₊) ∧
    ((tpx_waveforms ctA simP).flux.get? 0 = some 0 ∧
     (tpx_waveforms ctA simP).i_excitation.get? 0 = some 0) := by
  have h := C3_simulate_waveforms_grid ctA simP 1 rfl one_pos
  exact ⟨h.1, h.2.2 (by norm_num [total_time, simP])⟩

/-! ### C7: zero magnetization gain -/

/-- C7: for every `SimulationParams`, if the magnetization gain `a` is zero
then `simulate_waveforms` yields an identically-zero excitation current and
`i_real` equal to `i_ideal` at every sample, index 0 included (the loop
never writes index 0, and the analytic `i_ideal` vanishes at `t = 0`). -/
theorem C7_zero_gain_identity (p : CTParams) (sim : SimulationParams)
    (ha : p.a = 0) :
    (tpx_waveforms p sim).i_excitation =
      List.replicate (n_samples sim (dt_value sim)) 0 ∧
    (tpx_waveforms p sim).i_real = (tpx_waveforms p sim).i_ideal := by
  have hstate := tpx_state_snd_eq_zero ha sim (dt_value sim)
  constructor
  · show (List.range (n_samples sim (dt_value sim))).map _ = _
    rw [show List.replicate (n_samples sim (dt_value sim)) (0 : ℝ) =
          List.replicate (((List.range (n_samples sim (dt_value sim))).map
            (fun k => (tpx_state p sim (dt_value sim) k).2)).length) 0 by
        simp]
    apply List.eq_replicate_length.mpr
    intro b hb
    obtain ⟨k, _, rfl⟩ := List.mem_map.mp hb
    exact hstate k
  · show (List.range (n_samples sim (dt_value sim))).map _ =
      (List.range (n_samples sim (dt_value sim))).map _
    apply List.map_congr_left
    intro k _
    cases k with
    | zero =>
      show tpx_i_real p sim (dt_value sim) 0 =
        compute_i_ideal p sim (tGrid sim (dt_value sim) 0)
      rw [tGrid_zero, compute_i_ideal_at_zero]
      rfl
    | succ k0 =>
      show compute_i_ideal p sim (tGrid sim (dt_value sim) (k0 + 1)) -
          (tpx_state p sim (dt_value sim) (k0 + 1)).2 =
        compute_i_ideal p sim (tGrid sim (dt_value sim) (k0 + 1))
      rw [hstate (k0 + 1), sub_zero]

/-- Witness for C7 at a CT with `a = 0` and the one-sample scenario. -/
theorem C7_witness :
    (tpx_waveforms ctC simP).i_excitation =
      List.replicate (n_samples simP (dt_value simP)) 0 ∧
    (tpx_waveforms ctC simP).i_real = (tpx_waveforms ctC simP).i_ideal :=
  C7_zero_gain_identity ctC simP rfl

/-! ### C10: the first sample is zero -/

/-- C10: for every scenario with resolved positive dt producing at least one
sample, the first sample of every produced waveform is exactly zero —
`t[0] = 0`, `i_ideal[0] = 0` (the analytic expression vanishes at `t = 0`),
`i_real[0] = 0` and `v_req_instant[0] = 0` (the loop starts at index 1 on
zero-initialised arrays) — and consequently a finite `tsat` equal to the
first timestamp `t[0] = 0` forces `v_sat < 0`. -/
theorem C10_first_sample_zero (p : CTParams) (sim : SimulationParams) (d : ℝ)
    (hd : sim.dt = some d) (hdpos : 0 < d) (hn : 0 < n_samples sim d) :
    (tpx_waveforms p sim).t.get? 0 = some 0 ∧
    (tpx_waveforms p sim).i_ideal.get? 0 = some 0 ∧
    (tpx_waveforms p sim).i_real.get? 0 = some 0 ∧
    (tpx_waveforms p sim).v_req_instant.get? 0 = some 0 ∧
    ∀ vsat, compute_tsat (tpx_waveforms p sim).t
        (tpx_waveforms p sim).v_req_instant vsat = ((0 : ℝ) : WithTop ℝ) →
      vsat < 0 := by
  have hdv : dt_value sim = d := dt_value_of_some hd
  have hn' : 0 < n_samples sim (dt_value sim) := by rw [hdv]; exact hn
  have hi_real0 : tpx_i_real p sim (dt_value sim) 0 = 0 := rfl
  have hvri0 : (tpx_waveforms p sim).v_req_instant.get? 0 = some 0 := by
    rw [waveforms_vri_get? p sim hn', hi_real0]
    simp
  refine ⟨?_, ?_, ?_, hvri0, ?_⟩
  · rw [waveforms_t_get? p sim hn', tGrid_zero]
  · rw [waveforms_i_ideal_get? p sim hn', tGrid_zero, compute_i_ideal_at_zero]
  · rw [waveforms_i_real_get? p sim hn', hi_real0]
  · intro vsat h
    unfold compute_tsat at h
    cases hfe : first_exceed_idx vsat (tpx_waveforms p sim).v_req_instant with
    | none => rw [hfe] at h; exact absurd h (by simp)
    | some i =>
      rw [hfe] at h
      cases hti : (tpx_waveforms p sim).t.get? i with
      | none =>
        simp only [hti] at h
        exact absurd h (by simp)
      | some x =>
        simp only [hti] at h
        have hx0 : x = 0 := by exact_mod_cast h
        have hi0 : i = 0 := by
          have hmap : ((List.range (n_samples sim (dt_value sim))).map
              (fun k => tGrid sim (dt_value sim) k)).get? i = some x := hti
          obtain ⟨hlt, hxval⟩ := get?_map_range_inv hmap
          rw [hx0] at hxval
          have hT : 0 < total_time sim := total_time_pos hdpos hn
          have hnR : (0 : ℝ) < (n_samples sim (dt_value sim) : ℝ) := by
            exact_mod_cast hn'
          unfold tGrid at hxval
          rcases mul_eq_zero.mp hxval.symm with hiz | hdz
          · exact_mod_cast hiz
          · exact absurd hdz (ne_of_gt (div_pos hT hnR))
        subst hi0
        obtain ⟨⟨y, hy, hvy⟩, -⟩ := first_exceed_idx_eq_some hfe
        rw [hvri0] at hy
        obtain rfl : (0 : ℝ) = y := by simpa using hy
        exact hvy

/-- Witness for C10 at the one-sample scenario. -/
theorem C10_witness :
    (tpx_waveforms ctA simP).t.get? 0 = some 0 ∧
    (tpx_waveforms ctA simP).i_ideal.get? 0 = some 0 ∧
    (tpx_waveforms ctA simP).i_real.get? 0 = some 0 ∧
    (tpx_waveforms ctA simP).v_req_instant.get? 0 = some 0 := by
  have h := C10_first_sample_zero ctA simP 1 rfl one_pos
    (by norm_num [n_samples, total_time, simP])
  exact ⟨h.1, h.2.1, h.2.2.1, h.2.2.2.1⟩

/-! ### Helper lemmas: sliding RMS -/

theorem rms_replicate {m : ℕ} (hm : 0 < m) (I : ℝ) :
    rms (List.replicate m I) = |I| := by
  unfold rms
  rw [List.map_replicate, List.sum_replicate, List.length_replicate,
    nsmul_eq_mul,
    mul_div_cancel_left₀ _ (Nat.cast_ne_zero.mpr (Nat.pos_iff_ne_zero.mp hm))]
  exact Real.sqrt_sq_eq_abs I

theorem window_of_const {l : List ℝ} {I : ℝ} (hconst : ∀ x ∈ l, x = I)
    {j spc : ℕ} (h : j + spc ≤ l.length) :
    (l.drop j).take spc = List.replicate spc I := by
  rw [List.eq_replicate_iff]
  constructor
  · rw [List.length_take, List.length_drop]
    omega
  · intro b hb
    exact hconst b (List.mem_of_mem_drop (List.mem_of_mem_take hb))

theorem maximum_spec {l : List ℝ} (h : l ≠ []) :
    ∃ a : ℝ, l.maximum = (a : WithBot ℝ) ∧ a ∈ l ∧ ∀ b ∈ l, b ≤ a := by
  have hne := List.maximum_ne_bot_of_ne_nil h
  cases hmx : l.maximum with
  | bot => exact absurd hmx hne
  | coe a =>
    refine ⟨a, rfl, List.maximum_mem hmx, fun b hb => ?_⟩
    exact_mod_cast List.le_maximum_of_mem hb hmx

theorem required_voltages_core_ok (p : CTParams) {sim : SimulationParams}
    {d : ℝ} (hd : sim.dt = some d) (i_real : List ℝ)
    (hspc : 0 < pyRound (1 / (sim.frequency_hz * d)))
    (hn : (pyRound (1 / (sim.frequency_hz * d))).toNat ≤ i_real.length) :
    required_voltages_core p sim i_real = .ok
      ((p.r_ct + p.r_b) * (((List.range (i_real.length + 1 -
          (pyRound (1 / (sim.frequency_hz * d))).toNat)).map (fun j =>
          rms ((i_real.drop j).take
            (pyRound (1 / (sim.frequency_hz * d))).toNat))).getLast?.getD 0),
       (p.r_ct + p.r_b) * (((List.range (i_real.length + 1 -
          (pyRound (1 / (sim.frequency_hz * d))).toNat)).map (fun j =>
          rms ((i_real.drop j).take
            (pyRound (1 / (sim.frequency_hz * d))).toNat))).maximum.unbot' 0)) := by
  rcases sim with ⟨f, nc, ip, tp, dtf⟩
  obtain rfl : dtf = some d := hd
  simp only [required_voltages_core]
  rw [if_neg (not_le.mpr hspc), if_neg (not_lt.mpr hn)]

/-! ### C4: sliding-window RMS required voltages -/

/-- C4: whenever the `i_real` series has at least `samples_per_cycle`
samples (and the guards pass), `calculate_required_voltages` computes the
RMS of every window of exactly `samples_per_cycle` consecutive samples
(windows ending at every index from `samples_per_cycle` to `n`, step 1):
`v_req_perm` is `(r_ct+r_b)` times the RMS of the window ending at the final
sample, `v_req_trans` is `(r_ct+r_b)` times the maximum window RMS, and for
a constant series of value `I` both equal `(r_ct+r_b)·|I|` exactly. -/
theorem C4_required_voltages_rms (p : CTParams) (sim : SimulationParams)
    (d : ℝ) (spc : ℕ) (i_real : List ℝ) (hd : sim.dt = some d)
    (hspcdef : spc = (pyRound (1 / (sim.frequency_hz * d))).toNat)
    (hspcpos : 0 < pyRound (1 / (sim.frequency_hz * d)))
    (hn : spc ≤ i_real.length) :
    (∃ vt, required_voltages_core p sim i_real = .ok
        ((p.r_ct + p.r_b) *
          rms ((i_real.drop (i_real.length - spc)).take spc), vt) ∧
      ∃ j0, j0 ≤ i_real.length - spc ∧
        vt = (p.r_ct + p.r_b) * rms ((i_real.drop j0).take spc) ∧
        ∀ j, j ≤ i_real.length - spc →
          rms ((i_real.drop j).take spc) ≤ rms ((i_real.drop j0).take spc)) ∧
    (∀ I, (∀ x ∈ i_real, x = I) →
      required_voltages_core p sim i_real = .ok
        ((p.r_ct + p.r_b) * |I|, (p.r_ct + p.r_b) * |I|)) := by
  subst hspcdef
  set spc := (pyRound (1 / (sim.frequency_hz * d))).toNat with hspc
  have hcore := required_voltages_core_ok p hd i_real hspcpos hn
  rw [← hspc] at hcore
  have hspc0 : 0 < spc := by omega
  have hrange : i_real.length + 1 - spc = (i_real.length - spc) + 1 := by omega
  have hsplit : (List.range (i_real.length + 1 - spc)).map
      (fun j => rms ((i_real.drop j).take spc)) =
    (List.range (i_real.length - spc)).map
      (fun j => rms ((i_real.drop j).take spc)) ++
      [rms ((i_real.drop (i_real.length - spc)).take spc)] := by
    rw [hrange, List.range_succ, List.map_append]
    rfl
  have hlast : ((List.range (i_real.length + 1 - spc)).map
      (fun j => rms ((i_real.drop j).take spc))).getLast?.getD 0 =
    rms ((i_real.drop (i_real.length - spc)).take spc) := by
    rw [hsplit, List.getLast?_concat]
    rfl
  have hne : (List.range (i_real.length + 1 - spc)).map
      (fun j => rms ((i_real.drop j).take spc)) ≠ [] := by
    apply List.ne_nil_of_length_pos
    rw [List.length_map, List.length_range]
    omega
  obtain ⟨m, hm, hmem, hmax⟩ := maximum_spec hne
  obtain ⟨j0, hj0mem, hj0⟩ := List.mem_map.mp hmem
  have hj0lt : j0 < i_real.length + 1 - spc := List.mem_range.mp hj0mem
  constructor
  · refine ⟨(p.r_ct + p.r_b) * (((List.range (i_real.length + 1 - spc)).map
      (fun j => rms ((i_real.drop j).take spc))).maximum.unbot' 0), ?_, ?_⟩
    · rw [hcore, hlast]
    · refine ⟨j0, by omega, ?_, ?_⟩
      · rw [hm, WithBot.unbot'_coe]
        exact congrArg (fun x => (p.r_ct + p.r_b) * x) hj0.symm
      · intro j hj
        have hjmem : rms ((i_real.drop j).take spc) ∈
            (List.range (i_real.length + 1 - spc)).map
              (fun j => rms ((i_real.drop j).take spc)) :=
          List.mem_map.mpr ⟨j, List.mem_range.mpr (by omega), rfl⟩
        have := hmax _ hjmem
        rw [← hj0] at this
        exact this
  · intro I hconst
    have hwin : ∀ j, j ≤ i_real.length - spc →
        rms ((i_real.drop j).take spc) = |I| := by
      intro j hj
      rw [window_of_const hconst (by omega), rms_replicate hspc0]
    have hmI : m = |I| := by
      rw [← hj0]
      exact hwin j0 (by omega)
    rw [hcore, hlast, hm, WithBot.unbot'_coe, hmI,
      hwin (i_real.length - spc) (le_refl _)]

/-- Witness for C4: two samples per cycle, the constant series `[3, 3]`;
both required voltages come out as `(r_ct+r_b)·|3|`. -/
theorem C4_witness :
    required_voltages_core ctA simQ [3, 3] =
      .ok ((ctA.r_ct + ctA.r_b) * |(3 : ℝ)|, (ctA.r_ct + ctA.r_b) * |(3 : ℝ)|) := by
  have hp : pyRound (1 / (simQ.frequency_hz * (1 / 2))) = 2 := by
    rw [show (1 : ℝ) / (simQ.frequency_hz * (1 / 2)) = ((2 : ℕ) : ℝ) by
      norm_num [simQ]]
    exact pyRound_natCast 2
  refine (C4_required_voltages_rms ctA simQ (1 / 2) 2 [3, 3] rfl ?_ ?_ ?_).2 3 ?_
  · rw [hp]
    rfl
  · rw [hp]
    norm_num
  · simp
  · intro x hx
    simp at hx
    exact hx

/-! ### C6: error taxonomy of calculate_required_voltages -/

theorem required_voltages_core_invalidState (p : CTParams)
    {sim : SimulationParams} (i_real : List ℝ) (h : sim.dt = none) :
    required_voltages_core p sim i_real = .error .invalidState := by
  rcases sim with ⟨f, nc, ip, tp, dtf⟩
  obtain rfl : dtf = none := h
  rfl

theorem required_voltages_core_invalidConfiguration (p : CTParams)
    {sim : SimulationParams} {d : ℝ} (hd : sim.dt = some d) (i_real : List ℝ)
    (h : pyRound (1 / (sim.frequency_hz * d)) ≤ 0) :
    required_voltages_core p sim i_real = .error .invalidConfiguration := by
  rcases sim with ⟨f, nc, ip, tp, dtf⟩
  obtain rfl : dtf = some d := hd
  simp only [required_voltages_core]
  rw [if_pos h]

theorem required_voltages_core_insufficientData (p : CTParams)
    {sim : SimulationParams} {d : ℝ} (hd : sim.dt = some d) (i_real : List ℝ)
    (hpos : 0 < pyRound (1 / (sim.frequency_hz * d)))
    (hlen : i_real.length < (pyRound (1 / (sim.frequency_hz * d))).toNat) :
    required_voltages_core p sim i_real = .error .insufficientData := by
  rcases sim with ⟨f, nc, ip, tp, dtf⟩
  obtain rfl : dtf = some d := hd
  simp only [required_voltages_core]
  rw [if_neg (not_le.mpr hpos), if_pos hlen]

theorem calculate_required_voltages_eq (m : TPXTransformer)
    (sim : SimulationParams) :
    m.calculate_required_voltages sim =
      (required_voltages_core m.params sim
        (m.ensure_waveforms sim).1.i_real).map
        (fun pr => (pr, (m.ensure_waveforms sim).2)) := rfl

/-- C6: `calculate_required_voltages` fails exactly as the spec's taxonomy
says — `InvalidState` when `dt` is unresolved, `InvalidConfiguration` when
`samples_per_cycle = round(1/(frequency_hz·dt))` is `≤ 0`, and
`InsufficientData` when the waveform has fewer samples than
`samples_per_cycle`; otherwise it returns the pair normally. -/
theorem C6_required_voltages_errors (m : TPXTransformer)
    (sim : SimulationParams) :
    (sim.dt = none →
      m.calculate_required_voltages sim = .error .invalidState) ∧
    (∀ d, sim.dt = some d → pyRound (1 / (sim.frequency_hz * d)) ≤ 0 →
      m.calculate_required_voltages sim = .error .invalidConfiguration) ∧
    (∀ d, sim.dt = some d → 0 < pyRound (1 / (sim.frequency_hz * d)) →
      (m.ensure_waveforms sim).1.i_real.length <
        (pyRound (1 / (sim.frequency_hz * d))).toNat →
      m.calculate_required_voltages sim = .error .insufficientData) ∧
    (∀ d, sim.dt = some d → 0 < pyRound (1 / (sim.frequency_hz * d)) →
      (pyRound (1 / (sim.frequency_hz * d))).toNat ≤
        (m.ensure_waveforms sim).1.i_real.length →
      (m.calculate_required_voltages sim).isOk = true) := by
  refine ⟨?_, ?_, ?_, ?_⟩
  · intro h
    rw [calculate_required_voltages_eq,
      required_voltages_core_invalidState _ _ h]
    rfl
  · intro d hd h
    rw [calculate_required_voltages_eq,
      required_voltages_core_invalidConfiguration _ hd _ h]
    rfl
  · intro d hd hpos hlen
    rw [calculate_required_voltages_eq,
      required_voltages_core_insufficientData _ hd _ hpos hlen]
    rfl
  · intro d hd hpos hlen
    rw [calculate_required_voltages_eq,
      required_voltages_core_ok m.params hd _ hpos hlen]
    rfl

/-- Witness for C6: all four branches at concrete inputs — unresolved `dt`,
`dt` far coarser than a cycle, a cached one-sample waveform against a
two-sample cycle, and a well-formed one-sample case. -/
theorem C6_witness :
    (TPXTransformer.mk ctA (some wZ)).calculate_required_voltages simN =
      .error .invalidState ∧
    (TPXTransformer.mk ctA (some wZ)).calculate_required_voltages simCoarse =
      .error .invalidConfiguration ∧
    (TPXTransformer.mk ctA (some wZ)).calculate_required_voltages simQ =
      .error .insufficientData ∧
    ((TPXTransformer.mk ctA (some wZ)).calculate_required_voltages simP).isOk
      = true := by
  have hcoarse : pyRound (1 / (simCoarse.frequency_hz * 1000)) = 0 := by
    rw [show (1 : ℝ) / (simCoarse.frequency_hz * 1000) = 1 / 1000 from by
      norm_num [simCoarse]]
    exact pyRound_eq_zero (by norm_num) (by norm_num)
  have hq : pyRound (1 / (simQ.frequency_hz * (1 / 2))) = 2 := by
    rw [show (1 : ℝ) / (simQ.frequency_hz * (1 / 2)) = ((2 : ℕ) : ℝ) from by
      norm_num [simQ]]
    exact pyRound_natCast 2
  have hp : pyRound (1 / (simP.frequency_hz * 1)) = 1 := by
    rw [show (1 : ℝ) / (simP.frequency_hz * 1) = ((1 : ℕ) : ℝ) from by
      norm_num [simP]]
    exact pyRound_natCast 1
  refine ⟨(C6_required_voltages_errors _ simN).1 rfl, ?_, ?_, ?_⟩
  · exact (C6_required_voltages_errors _ simCoarse).2.1 1000 rfl
      (le_of_eq hcoarse)
  · refine (C6_required_voltages_errors _ simQ).2.2.1 (1 / 2) rfl
      (by rw [hq]; norm_num) ?_
    rw [hq]
    show (wZ.i_real.length) < 2
    norm_num [wZ]
  · refine (C6_required_voltages_errors _ simP).2.2.2 1 rfl
      (by rw [hp]; norm_num) ?_
    rw [hp]
    show 1 ≤ wZ.i_real.length
    norm_num [wZ]

/-! ### C9: the waveform cache -/

/-- C9: with a populated cache, `calculate_required_voltages` never
recomputes waveforms — it derives the RMS windows from the cached `i_real`
while taking `samples_per_cycle` from the `settings` argument (whatever it
is), and leaves the cache untouched; the cache is replaced exactly by a new
`simulate_waveforms` call. -/
theorem C9_cache_reuse (m : TPXTransformer) (sim : SimulationParams)
    (w : Waveforms) (h : m.last_waveforms = some w) :
    m.calculate_required_voltages sim =
      (required_voltages_core m.params sim w.i_real).map (fun pr => (pr, m)) ∧
    ∀ sim2, ((m.simulate_waveforms sim2).2).last_waveforms =
      some (tpx_waveforms m.params sim2) := by
  constructor
  · simp only [TPXTransformer.calculate_required_voltages,
      TPXTransformer.ensure_waveforms, h]
  · intro sim2
    rfl

/-- Witness for C9: a transformer pre-populated with `w9` answers from the
cached series `[5]` and keeps its state. -/
theorem C9_witness :
    (TPXTransformer.mk ctA (some w9)).calculate_required_voltages simP =
      (required_voltages_core ctA simP w9.i_real).map
        (fun pr => (pr, TPXTransformer.mk ctA (some w9))) :=
  (C9_cache_reuse (TPXTransformer.mk ctA (some w9)) simP w9 rfl).1

/-! ### Helper lemmas: running the orchestrator -/

theorem run_simulation_eq (p : CTParams) (sim : SimulationParams) (ty : String)
    (hty : str_upper ty ∈ registry_keys) {vp vt : ℝ}
    (hcore : required_voltages_core p (resolve_dt sim)
      (tpx_waveforms p (resolve_dt sim)).i_real = .ok (vp, vt)) :
    run_simulation p sim ty = .ok
      { ct_params := p
        sim_params := resolve_dt sim
        waveforms := tpx_waveforms p (resolve_dt sim)
        vsat := TPXTransformer.calculate_saturation_voltage ⟨p, none⟩
        v_req_perm := vp
        v_req_trans := vt
        tsat := if TPXTransformer.calculate_saturation_voltage ⟨p, none⟩ < vt
          then compute_tsat (tpx_waveforms p (resolve_dt sim)).t
            (tpx_waveforms p (resolve_dt sim)).v_req_instant
            (TPXTransformer.calculate_saturation_voltage ⟨p, none⟩)
          else ⊤
        saturated_perm :=
          TPXTransformer.calculate_saturation_voltage ⟨p, none⟩ < vp
        saturated_trans :=
          TPXTransformer.calculate_saturation_voltage ⟨p, none⟩ < vt } := by
  simp only [run_simulation, TransformerFactory.create, if_pos hty,
    TPXTransformer.simulate_waveforms, TPXTransformer.ensure_waveforms,
    TPXTransformer.calculate_required_voltages, hcore, Except.map]

theorem run_simulation_error_of_core {p : CTParams} {sim : SimulationParams}
    {ty : String} {e : SimError}
    (hty : str_upper ty ∈ registry_keys)
    (hcore : required_voltages_core p (resolve_dt sim)
      (tpx_waveforms p (resolve_dt sim)).i_real = .error e) :
    run_simulation p sim ty = .error e := by
  simp only [run_simulation, TransformerFactory.create, if_pos hty,
    TPXTransformer.simulate_waveforms, TPXTransformer.ensure_waveforms,
    TPXTransformer.calculate_required_voltages, hcore, Except.map]

theorem run_simulation_unsupported {p : CTParams} {sim : SimulationParams}
    {ty : String} (hty : str_upper ty ∉ registry_keys) :
    run_simulation p sim ty = .error (.unsupportedType ty) := by
  simp only [run_simulation, TransformerFactory.create, if_neg hty]

theorem run_simulation_ok_elim {p : CTParams} {sim : SimulationParams}
    {ty : String} {res : SimulationResult}
    (h : run_simulation p sim ty = .ok res) :
    ∃ vp vt,
      required_voltages_core p (resolve_dt sim)
        (tpx_waveforms p (resolve_dt sim)).i_real = .ok (vp, vt) ∧
      res = { ct_params := p
              sim_params := resolve_dt sim
              waveforms := tpx_waveforms p (resolve_dt sim)
              vsat := TPXTransformer.calculate_saturation_voltage ⟨p, none⟩
              v_req_perm := vp
              v_req_trans := vt
              tsat := if TPXTransformer.calculate_saturation_voltage
                  ⟨p, none⟩ < vt
                then compute_tsat (tpx_waveforms p (resolve_dt sim)).t
                  (tpx_waveforms p (resolve_dt sim)).v_req_instant
                  (TPXTransformer.calculate_saturation_voltage ⟨p, none⟩)
                else ⊤
              saturated_perm :=
                TPXTransformer.calculate_saturation_voltage ⟨p, none⟩ < vp
              saturated_trans :=
                TPXTransformer.calculate_saturation_voltage ⟨p, none⟩
                  < vt } := by
  by_cases hty : str_upper ty ∈ registry_keys
  · cases hcore : required_voltages_core p (resolve_dt sim)
        (tpx_waveforms p (resolve_dt sim)).i_real with
    | error e =>
      rw [run_simulation_error_of_core hty hcore] at h
      exact absurd h (by simp)
    | ok pr =>
      obtain ⟨vp, vt⟩ := pr
      rw [run_simulation_eq p sim ty hty hcore] at h
      injection h with h2
      exact ⟨vp, vt, rfl, h2.symm⟩
  · rw [run_simulation_unsupported hty] at h
    exact absurd h (by simp)

/-! ### C1: saturation flags and saturation time -/

/-- C1: for every successful `run_simulation`, `saturated_perm` holds iff
`vsat < v_req_perm` and `saturated_trans` iff `vsat < v_req_trans` (strict,
so equality is not saturated); `tsat` is `+∞` whenever `saturated_trans`
fails, and when it holds `tsat` is the time `t[k]` of the first index whose
`v_req_instant` exceeds `vsat` (scanning in time order), or `+∞` when no
sample exceeds. -/
theorem C1_run_simulation_flags_tsat (p : CTParams) (sim : SimulationParams)
    (ty : String) (res : SimulationResult)
    (h : run_simulation p sim ty = .ok res) :
    (res.saturated_perm ↔ res.vsat < res.v_req_perm) ∧
    (res.saturated_trans ↔ res.vsat < res.v_req_trans) ∧
    (¬ res.saturated_trans → res.tsat = ⊤) ∧
    (res.saturated_trans →
      (∃ k tk vk,
        res.waveforms.v_req_instant.get? k = some vk ∧ res.vsat < vk ∧
        (∀ j y, j < k → res.waveforms.v_req_instant.get? j = some y →
          ¬ res.vsat < y) ∧
        res.waveforms.t.get? k = some tk ∧ res.tsat = (tk : WithTop ℝ)) ∨
      ((∀ j y, res.waveforms.v_req_instant.get? j = some y →
        ¬ res.vsat < y) ∧ res.tsat = ⊤)) := by
  obtain ⟨vp, vt, hcore, rfl⟩ := run_simulation_ok_elim h
  dsimp only
  refine ⟨Iff.rfl, Iff.rfl, ?_, ?_⟩
  · intro hns
    exact if_neg hns
  · intro hs
    rw [if_pos hs]
    cases hfe : first_exceed_idx
        (TPXTransformer.calculate_saturation_voltage ⟨p, none⟩)
        (tpx_waveforms p (resolve_dt sim)).v_req_instant with
    | none =>
      right
      refine ⟨fun j y hy => first_exceed_idx_eq_none hfe j y hy, ?_⟩
      simp only [compute_tsat, hfe]
    | some k =>
      left
      obtain ⟨⟨x, hx, hvx⟩, hmin⟩ := first_exceed_idx_eq_some hfe
      have hklt : k < n_samples (resolve_dt sim) (dt_value (resolve_dt sim)) := by
        obtain ⟨hl, -⟩ := List.get?_eq_some.mp hx
        simpa [tpx_waveforms] using hl
      have ht := waveforms_t_get? p (resolve_dt sim) hklt
      refine ⟨k, tGrid (resolve_dt sim) (dt_value (resolve_dt sim)) k, x,
        hx, hvx, ?_, ht, ?_⟩
      · intro j y hj hy
        obtain ⟨y', hy', hny⟩ := hmin j hj
        rw [hy] at hy'
        obtain rfl : y = y' := by simpa using hy'
        exact hny
      · simp only [compute_tsat, hfe, ht]

/-! ### C5: dt resolution in run_simulation -/

/-- C5: `run_simulation` resolves an unset `dt` once, up front, to exactly
`1/(frequency_hz·200)` — a positive value whenever `frequency_hz > 0` — and
the returned result carries the resolved settings; an already-set `dt` is
passed through unchanged into the result. -/
theorem C5_run_simulation_resolves_dt (p : CTParams) (sim : SimulationParams)
    (ty : String) (res : SimulationResult)
    (h : run_simulation p sim ty = .ok res) :
    (sim.dt = none →
      res.sim_params.dt = some (1 / (sim.frequency_hz * 200)) ∧
      (0 < sim.frequency_hz → 0 < 1 / (sim.frequency_hz * 200))) ∧
    (∀ d0, sim.dt = some d0 → res.sim_params.dt = some d0) := by
  obtain ⟨vp, vt, hcore, rfl⟩ := run_simulation_ok_elim h
  dsimp only
  constructor
  · intro hnone
    constructor
    · unfold resolve_dt
      rw [hnone]
    · intro hf
      exact div_pos one_pos (mul_pos hf (by norm_num))
  · intro d0 hsome
    unfold resolve_dt
    rw [hsome]
    exact hsome

/-! ### A concrete end-to-end run for the orchestrator witnesses -/

theorem n_samples_simP : n_samples simP (dt_value simP) = 1 := by
  unfold n_samples total_time
  rw [show dt_value simP = 1 from rfl]
  norm_num [simP, Nat.ceil_one]

theorem tpx_i_real_simP_zero : tpx_i_real ctA simP (dt_value simP) 0 = 0 := rfl

theorem range_one_eq : List.range 1 = [0] := rfl

theorem rms_zero_singleton : rms [(0 : ℝ)] = 0 := by
  unfold rms
  simp

theorem wZ_eq : tpx_waveforms ctA simP = wZ := by
  simp only [tpx_waveforms]
  rw [n_samples_simP]
  simp [range_one_eq, tGrid_zero, compute_i_ideal_at_zero,
    tpx_i_real_simP_zero, wZ, tpx_state]

theorem pyRound_simP : pyRound (1 / (simP.frequency_hz * 1)) = 1 := by
  rw [show (1 : ℝ) / (simP.frequency_hz * 1) = ((1 : ℕ) : ℝ) from by
    norm_num [simP]]
  exact pyRound_natCast 1

theorem core_simP : required_voltages_core ctA simP [(0 : ℝ)] = .ok (0, 0) := by
  have h := required_voltages_core_ok ctA (show simP.dt = some 1 from rfl)
    [(0 : ℝ)] (by rw [pyRound_simP]; norm_num) (by rw [pyRound_simP]; simp)
  rw [pyRound_simP] at h
  have hwin : (([(0 : ℝ)].drop 0).take (1 : ℤ).toNat) = [0] := rfl
  simp only [show ([(0 : ℝ)].length + 1 - (1 : ℤ).toNat) = 1 from rfl,
    range_one_eq, List.map_cons, List.map_nil, hwin, rms_zero_singleton,
    List.getLast?_singleton, Option.getD_some, List.maximum_singleton,
    WithBot.unbot'_coe, mul_zero] at h
  exact h

theorem vsat_ctA :
    TPXTransformer.calculate_saturation_voltage ⟨ctA, none⟩ = 60 := by
  unfold TPXTransformer.calculate_saturation_voltage
  norm_num [ctA]

theorem run_W1 : run_simulation ctA simP "TPX" = .ok resW1 := by
  have hres := run_simulation_eq ctA simP "TPX" (by decide)
    (show required_voltages_core ctA (resolve_dt simP)
        (tpx_waveforms ctA (resolve_dt simP)).i_real = .ok (0, 0) by
      rw [show resolve_dt simP = simP from rfl, wZ_eq]; exact core_simP)
  rw [hres, show resolve_dt simP = simP from rfl, wZ_eq, vsat_ctA,
    if_neg (show ¬ (60 : ℝ) < 0 by norm_num),
    eq_false (show ¬ (60 : ℝ) < 0 by norm_num)]
  rfl

/-- Witness for C1: the concrete run `run_simulation ctA simP "TPX"`
succeeds and its flags and saturation time satisfy the stated relations. -/
theorem C1_witness :
    (resW1.saturated_perm ↔ resW1.vsat < resW1.v_req_perm) ∧
    (resW1.saturated_trans ↔ resW1.vsat < resW1.v_req_trans) ∧
    (¬ resW1.saturated_trans → resW1.tsat = ⊤) :=
  have h := C1_run_simulation_flags_tsat ctA simP "TPX" resW1 run_W1
  ⟨h.1, h.2.1, h.2.2.1⟩

/-- Witness for C5: the same concrete run passes the preset `dt = 1`
through unchanged into the returned settings. -/
theorem C5_witness : resW1.sim_params.dt = some 1 :=
  (C5_run_simulation_resolves_dt ctA simP "TPX" resW1 run_W1).2 1 rfl
